import Mathlib

/-!
Shallow embedding of `app.py` (a Flask front-end over the yt-dlp extraction
library) in Lean 4, for checking the natural-language specification against
the code.

Modelling conventions:
* Python strings are Lean `String`s; character-level work is done on
  `List Char` via `String.data`.
* Python dicts that the code builds (yt-dlp option dicts, JSON response
  bodies) are association lists `List (String × Val)` with Python
  `dict.update` semantics made explicit.
* The external extraction library (`yt_dlp.YoutubeDL.extract_info`,
  `prepare_filename`) is an oracle parameter: a function from the options
  dict and url to either an info value or a raised exception
  (`Except Exc ...`).  Exceptions the code catches are the constructors of
  `Exc`; a Python function that never lets an exception escape is modelled
  with a plain (non-`Except`) return type.
* `urllib.parse.urlparse(...).netloc` is modelled after CPython's
  `urlsplit` (lstrip of C0-control/space characters, removal of tab/CR/LF,
  scheme split, netloc up to the first of `/?#`, ValueError — modelled as
  `none` — on mismatched IPv6 brackets).  The NFKC re-encoding check
  `_checknetloc`, which can only raise for certain non-ASCII netlocs, is
  not modelled.
-/

/-- Python `str.isspace` characters relevant to `str.strip()` (ASCII range;
the rare non-ASCII Unicode whitespace is not modelled). -/
def is_py_space (c : Char) : Bool :=
  c = ' ' || c = '\t' || c = '\n' || c = '\x0d' || c = '\x0b' || c = '\x0c'

/-- Strip `is_py_space` characters from both ends of a character list. -/
def strip_chars (l : List Char) : List Char :=
  ((l.dropWhile is_py_space).reverse.dropWhile is_py_space).reverse

/-- Model of Python `str.strip()` (no arguments). -/
def py_strip (s : String) : String := String.mk (strip_chars s.data)

/-- Substring occurrence on character lists: does `needle` occur
contiguously inside the second list?  Models Python's `in` on strings. -/
def list_contains_sub (needle : List Char) : List Char → Bool
  | [] => needle.isEmpty
  | c :: t => needle.isPrefixOf (c :: t) || list_contains_sub needle t

/-- Model of Python `needle in hay` for strings. -/
def py_in (needle hay : String) : Bool := list_contains_sub needle.data hay.data

/-- Model of Python `s.endswith(t)`. -/
def py_endswith (s t : String) : Bool := t.data.isSuffixOf s.data

/-- Model of Python `s.lower()` (ASCII case mapping; `Char.toLower` agrees
with Python on the ASCII letters appearing in the matched substrings). -/
def py_lower (s : String) : String := String.mk (s.data.map Char.toLower)

/-- CPython `urllib.parse`: the `_WHATWG_C0_CONTROL_OR_SPACE` class that is
lstripped from the url (code points U+0000 through U+0020). -/
def c0_control_or_space (c : Char) : Bool := c.toNat ≤ 32

/-- CPython `urllib.parse`: `_UNSAFE_URL_BYTES_TO_REMOVE` (tab, CR, LF),
removed from anywhere in the url. -/
def tab_cr_nl (c : Char) : Bool := c = '\t' || c = '\x0d' || c = '\n'

/-- CPython `urllib.parse.scheme_chars`: letters, digits, `+`, `-`, `.`. -/
def scheme_char (c : Char) : Bool :=
  c.isAlpha || c.isDigit || c = '+' || c = '-' || c = '.'

/-- CPython `urlsplit` scheme handling: if the url has a `:` at index
`i > 0`, its first character is an ASCII letter and every character before
the `:` is a scheme character, drop the scheme and the `:`; otherwise keep
the url unchanged.  (The lowercased scheme itself is discarded here since
only the netloc is needed.) -/
def split_scheme (url : List Char) : List Char :=
  match url.findIdx? (fun c => c = ':') with
  | none => url
  | some i =>
    match url with
    | [] => url
    | c0 :: _ =>
      if 0 < i && c0.isAlpha && (url.take i).all scheme_char then
        url.drop (i + 1)
      else url

/-- CPython `urlsplit` after scheme removal: the netloc is present only when
the rest starts with `//`, and extends to the first `/`, `?` or `#`
(`_splitnetloc`).  Mismatched square brackets raise `ValueError`
("Invalid IPv6 URL"), modelled as `none`. -/
def netloc_of_rest (rest : List Char) : Option (List Char) :=
  match rest with
  | '/' :: '/' :: r =>
    let netloc := r.takeWhile (fun c => !(c = '/' || c = '?' || c = '#'))
    if (netloc.contains '[' && !(netloc.contains ']')) ||
       (netloc.contains ']' && !(netloc.contains '[')) then none
    else some netloc
  | _ => some []

/-- The `.netloc` of CPython `urlsplit` on a character list; `none` models a
raised `ValueError`. -/
def urlsplit_netloc (url : List Char) : Option (List Char) :=
  netloc_of_rest (split_scheme ((url.dropWhile c0_control_or_space).filter
    (fun c => !(tab_cr_nl c))))

/-- Model of `urlparse(url).netloc`; `none` models a raised exception. -/
def urlparse_netloc (url : String) : Option String :=
  (urlsplit_netloc url.data).map String.mk

/-- The `valid_domains` list of `is_valid_youtube_url` (app.py line 25). -/
def valid_domains : List String :=
  ["youtube.com", "youtu.be", "www.youtube.com", "m.youtube.com"]

/-- app.py `is_valid_youtube_url` (lines 21-28): parse the url, return
whether any allowed domain occurs as a substring of the netloc; any
exception from parsing yields `False`. -/
def is_valid_youtube_url (url : String) : Bool :=
  match urlparse_netloc url with
  | none => false
  | some netloc => valid_domains.any (fun d => py_in d netloc)

/-- Python values appearing in the dicts the code builds: strings, ints,
booleans, lists and nested dicts. -/
inductive Val where
  | s : String → Val
  | i : Int → Val
  | b : Bool → Val
  | list : List Val → Val
  | dict : List (String × Val) → Val

/-- A Python dict as the code builds it: an association list keyed by
strings (insertion order preserved, keys unique in the dicts built here). -/
abbrev Dict : Type := List (String × Val)

/-- First-match key lookup, the value of `d[k]` / `d.get(k)`. -/
def dictLookup (d : Dict) (k : String) : Option Val :=
  match d with
  | [] => none
  | (k', v) :: t => if k' = k then some v else dictLookup t k

/-- Model of Python `k in d` for dicts. -/
def dictHasKey (d : Dict) (k : String) : Bool := (dictLookup d k).isSome

/-- Model of `d[k] = v`: overwrite the first binding of `k` in place, or
append a new binding at the end. -/
def dictSet (d : Dict) (k : String) (v : Val) : Dict :=
  match d with
  | [] => [(k, v)]
  | (k', v') :: t => if k' = k then (k', v) :: t else (k', v') :: dictSet t k v

/-- Model of Python `d.update(extra)`: set each binding of `extra` in order. -/
def dictUpdate (d extra : Dict) : Dict :=
  extra.foldl (fun acc kv => dictSet acc kv.1 kv.2) d

/-- app.py line 13: `DOWNLOAD_FOLDER`. -/
def DOWNLOAD_FOLDER : String := "/tmp/downloads"

/-- app.py line 14: `COOKIE_PATH`. -/
def COOKIE_PATH : String := "/tmp/youtube.com_cookies.txt"

/-- app.py lines 55-69: the base options dict of `build_ydl_opts`. -/
def base_opts : Dict :=
  [ ("quiet", Val.b true),
    ("no_warnings", Val.b true),
    ("noplaylist", Val.b true),
    ("ignoreerrors", Val.b false),
    ("extract_flat", Val.b false),
    ("http_headers", Val.dict
      [ ("User-Agent", Val.s "Mozilla/5.0 (Windows NT 10.0; Win64; x64) AppleWebKit/537.36 (KHTML, like Gecko) Chrome/120.0.0.0 Safari/537.36"),
        ("Accept", Val.s "text/html,application/xhtml+xml,application/xml;q=0.9,*/*;q=0.8"),
        ("Accept-Language", Val.s "en-us,en;q=0.5"),
        ("Accept-Encoding", Val.s "gzip, deflate"),
        ("Connection", Val.s "keep-alive") ]),
    ("outtmpl", Val.s "/tmp/downloads/%(title).100s.%(ext)s") ]

/-- app.py `build_ydl_opts` (lines 53-76).  `cookie_exists` models
`os.path.exists(COOKIE_PATH)`; `extra` is the optional `extra` dict
(`none` models the default `None`; `opts.update(extra)` runs only when
`extra` is truthy, and updating with an empty dict is the identity, so
falsy `extra` is modelled by skipping the update). -/
def build_ydl_opts (cookie_exists : Bool) (extra : Option Dict) : Dict :=
  let opts := base_opts
  let opts := if cookie_exists then dictSet opts "cookiefile" (Val.s COOKIE_PATH)
              else opts
  match extra with
  | none => opts
  | some e => dictUpdate opts e

/-- app.py `write_cookiefile_from_env` (lines 30-48), modelled over an
environment lookup (`env_value` is `os.environ.get("YOUTUBE_COOKIES_B64")`)
and the base64 decoder (`b64decode s = none` models a raised exception;
bytes are `List Nat`).  The first component is the content written to
`COOKIE_PATH` (`none` when nothing is written), the second the return
value. -/
def write_cookiefile_from_env (env_value : Option String)
    (b64decode : String → Option (List Nat)) : Option (List Nat) × Bool :=
  match env_value with
  | none => (none, false)
  | some s =>
    if s = "" then (none, false)
    else
      match b64decode s with
      | none => (none, false)
      | some data => (some data, true)

/-- Exceptions the code catches: `yt_dlp.utils.DownloadError`,
`yt_dlp.utils.ExtractorError`, `UnicodeDecodeError`, and any other
exception.  Each carries its `str(e)` text. -/
inductive Exc where
  | downloadError : String → Exc
  | extractorError : String → Exc
  | unicodeDecodeError : String → Exc
  | other : String → Exc

/-- Model of Python `str(e)` on a caught exception. -/
def exc_str : Exc → String
  | Exc.downloadError m => m
  | Exc.extractorError m => m
  | Exc.unicodeDecodeError m => m
  | Exc.other m => m

/-- One entry of the info dict's `formats` list, with the two fields the
code reads via `f.get(...)` (`none` models an absent key or `None`). -/
structure Fmt where
  vcodec : Option String
  height : Option Int

/-- The fields of the yt-dlp info dict that the code reads via
`info.get(...)` (`none` models an absent key). -/
structure Info where
  title : Option String
  thumbnail : Option String
  duration : Option Int
  formats : List Fmt
  uploader : Option String
  view_count : Option Int

/-- Insert `x` into a descending-sorted list, keeping it descending. -/
def insertDesc (x : Int) : List Int → List Int
  | [] => [x]
  | y :: t => if y < x then x :: y :: t else y :: insertDesc x t

/-- Descending sort; models Python `sorted(..., reverse=True)` applied to a
set of ints. -/
def sortDesc : List Int → List Int
  | [] => []
  | x :: t => insertDesc x (sortDesc t)

/-- The filter `f.get("height") and f.get("height") >= 144`: the height is
present, truthy (nonzero) and at least 144. -/
def fmt_height_ok (f : Fmt) : Bool :=
  match f.height with
  | none => false
  | some h => (!(h = 0)) && 144 ≤ h

/-- app.py lines 102-106: heights of formats whose `vcodec` is not the
string `'none'` (`f.get('vcodec') != 'none'`; an absent vcodec compares
unequal), deduplicated as a set and sorted descending. -/
def resolutions_main (formats : List Fmt) : List Int :=
  sortDesc (((formats.filter (fun f => !(f.vcodec = some "none"))).filter
    fmt_height_ok).filterMap Fmt.height).dedup

/-- app.py lines 156-160 (the UnicodeDecodeError retry): same computation
but without the vcodec filter. -/
def resolutions_retry (formats : List Fmt) : List Int :=
  sortDesc ((formats.filter fmt_height_ok).filterMap Fmt.height).dedup

/-- The `resolutions` JSON value: each height rendered as `str(r) + "p"`,
with `'mp3'` appended. -/
def resolutions_val (rs : List Int) : Val :=
  Val.list ((rs.map (fun r => Val.s (toString r ++ "p"))) ++ [Val.s "mp3"])

/-- app.py lines 108-115: the success result dict of `get_video_info`. -/
def success_dict (info : Info) : Dict :=
  [ ("title", Val.s (info.title.getD "Unknown Title")),
    ("thumbnail", Val.s (info.thumbnail.getD "")),
    ("duration", Val.i (info.duration.getD 0)),
    ("resolutions", resolutions_val (resolutions_main info.formats)),
    ("uploader", Val.s (info.uploader.getD "Unknown")),
    ("view_count", Val.i (info.view_count.getD 0)) ]

/-- app.py lines 161-167: the success dict of the UnicodeDecodeError retry
(no `view_count`, unfiltered resolutions). -/
def retry_success_dict (info : Info) : Dict :=
  [ ("title", Val.s (info.title.getD "Unknown Title")),
    ("thumbnail", Val.s (info.thumbnail.getD "")),
    ("duration", Val.i (info.duration.getD 0)),
    ("resolutions", resolutions_val (resolutions_retry info.formats)),
    ("uploader", Val.s (info.uploader.getD "Unknown")) ]

/-- app.py lines 124-137: the `DownloadError` substring-classification
chain of `get_video_info`. -/
def classify_download_error (msg : String) : Dict :=
  if py_in "Private video" msg then
    [("error", Val.s "This video is private and cannot be accessed")]
  else if py_in "Members-only" msg then
    [("error", Val.s "This is a members-only video")]
  else if py_in "Sign in" msg || py_in "login" (py_lower msg) then
    [("error", Val.s "blocked"),
     ("message", Val.s "YouTube is requiring login. This server needs authentication cookies to access this video.")]
  else if py_in "Video unavailable" msg then
    [("error", Val.s "This video is unavailable or has been removed")]
  else if py_in "Too Many Requests" msg || py_in "429" msg then
    [("error", Val.s "YouTube is blocking requests due to rate limiting. Please try again later.")]
  else if py_in "Unsupported URL" msg then
    [("error", Val.s "Unsupported URL or invalid YouTube link")]
  else
    [("error", Val.s ("YouTube error: " ++ msg))]

/-- The extra dict `{'skip_download': True}` of app.py lines 89-91. -/
def info_extra : Dict := [("skip_download", Val.b true)]

/-- The simplified options of the UnicodeDecodeError retry
(app.py lines 149-153). -/
def simplified_opts : Dict :=
  [ ("quiet", Val.b true),
    ("skip_download", Val.b true),
    ("no_warnings", Val.b true) ]

/-- app.py `get_video_info` (lines 78-175).  `extract` is the oracle for
`YoutubeDL(opts).extract_info(url, download=False)`, taking the options
dict actually passed; `cookie_exists` models `os.path.exists(COOKIE_PATH)`
inside `build_ydl_opts`.  Every branch returns a dict — the Python
function catches every exception class it can meet — so the return type is
`Dict`, not `Except`. -/
def get_video_info (extract : Dict → String → Except Exc Info)
    (cookie_exists : Bool) (url : String) : Dict :=
  if url = "" || py_strip url = "" then
    [("error", Val.s "No URL provided")]
  else if !(is_valid_youtube_url url) then
    [("error", Val.s "Invalid YouTube URL. Please use a valid YouTube link.")]
  else
    match extract (build_ydl_opts cookie_exists (some info_extra)) url with
    | Except.ok info => success_dict info
    | Except.error (Exc.downloadError m) => classify_download_error m
    | Except.error (Exc.extractorError _) =>
      [("error", Val.s "Failed to extract video information. The video might be restricted.")]
    | Except.error (Exc.unicodeDecodeError _) =>
      match extract simplified_opts url with
      | Except.ok info => retry_success_dict info
      | Except.error _ =>
        [("error", Val.s "Character encoding issue. Please try a different video.")]
    | Except.error (Exc.other _) =>
      [("error", Val.s "Failed to fetch video information. Please check the URL and try again.")]

/-- The dict returned when every retry attempt fails (app.py line 191). -/
def all_failed_dict : Dict :=
  [("error", Val.s "All attempts failed. Please try again later.")]

/-- The loop of `get_video_info_with_retry` (app.py lines 179-191),
instrumented: `res k` is the dict returned by the `k`-th call of
`get_video_info(url)` (the oracle varies per attempt since the network
does); the first argument of the match is the current `attempt`, the
second the number of iterations left.  The result carries, besides the
returned dict, the number of `get_video_info` calls performed and the
total seconds slept (`time.sleep(1)` runs after a failed attempt exactly
when `attempt < max_retries - 1`, i.e. when iterations remain). -/
def retryAux (res : Nat → Dict) : Nat → Nat → Dict × Nat × Nat
  | _, 0 => (all_failed_dict, 0, 0)
  | attempt, fuel + 1 =>
    let r := res attempt
    if dictHasKey r "error" then
      let rest := retryAux res (attempt + 1) fuel
      (rest.1, rest.2.1 + 1, rest.2.2 + (if 0 < fuel then 1 else 0))
    else (r, 1, 0)

/-- app.py `get_video_info_with_retry` (lines 177-191), instrumented with
(call count, seconds slept).  `get_video_info` in this embedding never
raises, so the `except` arm of the loop body is dead. -/
def get_video_info_with_retry (res : Nat → Dict) (max_retries : Nat) :
    Dict × Nat × Nat :=
  retryAux res 0 max_retries

/-- `get_video_info_with_retry` at its default argument `max_retries=2`. -/
def get_video_info_with_retry_default (res : Nat → Dict) : Dict × Nat × Nat :=
  get_video_info_with_retry res 2

/-- Index of the last occurrence of `c` in `l`, if any
(Python `str.rfind` restricted to single characters). -/
def rfindChar (c : Char) (l : List Char) : Option Nat :=
  (l.reverse.findIdx? (fun x => x = c)).map (fun i => l.length - 1 - i)

/-- CPython `posixpath.splitext`, root component: split at the last `.`
that comes after the last `/` and after at least one non-`.` character of
the basename; otherwise the whole path is the root. -/
def splitext_root (p : List Char) : List Char :=
  let sepIdx : Int := match rfindChar '/' p with
    | some k => Int.ofNat k
    | none => -1
  let dotIdx : Int := match rfindChar '.' p with
    | some k => Int.ofNat k
    | none => -1
  if sepIdx < dotIdx then
    let start := (sepIdx + 1).toNat
    if ((p.drop start).take (dotIdx.toNat - start)).any (fun c => !(c = '.')) then
      p.take dotIdx.toNat
    else p
  else p

/-- CPython `posixpath.basename`: the part after the last `/`. -/
def path_basename (p : String) : String :=
  match rfindChar '/' p.data with
  | some k => String.mk (p.data.drop (k + 1))
  | none => p

/-- The yt-dlp format selector of `download_video` (app.py line 197). -/
def video_format_selector (resolution : String) : String :=
  "bestvideo[height<=" ++ resolution ++ "]+bestaudio/best[height<=" ++ resolution ++ "]"

/-- The extra options dict of `download_video` (app.py lines 196-199). -/
def video_extra (resolution : String) : Dict :=
  [ ("format", Val.s (video_format_selector resolution)),
    ("merge_output_format", Val.s "mp4") ]

/-- The extra options dict of `download_audio` (app.py lines 215-222). -/
def audio_extra : Dict :=
  [ ("format", Val.s "bestaudio/best"),
    ("postprocessors", Val.list
      [ Val.dict
        [ ("key", Val.s "FFmpegExtractAudio"),
          ("preferredcodec", Val.s "mp3"),
          ("preferredquality", Val.s "192") ] ]) ]

/-- app.py `download_video` (lines 193-210).  `dl` is the oracle for
`extract_info(url, download=True)` followed by `prepare_filename(info)`:
it yields the prepared filename, or the raised exception (which the
Python code prints and re-raises, hence `Except` here). -/
def download_video (dl : Dict → String → Except Exc String)
    (cookie_exists : Bool) (url resolution : String) : Except Exc String :=
  match dl (build_ydl_opts cookie_exists (some (video_extra resolution))) url with
  | Except.ok filename =>
    Except.ok (if py_endswith filename ".mp4" then filename
               else String.mk (splitext_root filename.data) ++ ".mp4")
  | Except.error e => Except.error e

/-- app.py `download_audio` (lines 212-232): same oracle shape; the
returned path is always `splitext(base_path)[0] + '.mp3'`. -/
def download_audio (dl : Dict → String → Except Exc String)
    (cookie_exists : Bool) (url : String) : Except Exc String :=
  match dl (build_ydl_opts cookie_exists (some audio_extra)) url with
  | Except.ok base_path =>
    Except.ok (String.mk (splitext_root base_path.data) ++ ".mp3")
  | Except.error e => Except.error e

/-- A Flask response as the handlers build it: a streamed file
(`send_file(path, as_attachment=True, download_name=name)`), a plain-text
body with a status code, or a JSON body with a status code. -/
inductive HResp where
  | file : String → String → HResp
  | text : String → Nat → HResp
  | json : Dict → Nat → HResp

/-- Model of `request.form.get(k, '')`: the field value, or `''` when the
field is absent. -/
def form_get (field : Option String) : String :=
  match field with
  | none => ""
  | some s => s

/-- app.py `get_formats` handler (lines 238-252).  `ex k` is the
extraction oracle seen by the `k`-th `get_video_info` call made by the
retry wrapper.  Returns the JSON body and the HTTP status. -/
def get_formats_handler (ex : Nat → Dict → String → Except Exc Info)
    (cookie_exists : Bool) (url_field : Option String) : Dict × Nat :=
  let url := py_strip (form_get url_field)
  if url = "" then ([("error", Val.s "No URL provided")], 400)
  else
    let info := (get_video_info_with_retry_default
      (fun k => get_video_info (ex k) cookie_exists url)).1
    if dictHasKey info "error" then (info, 200) else (info, 200)

/-- app.py `download` handler (lines 254-282).  `dl` is the download
oracle shared by `download_video` / `download_audio`.  The second
component counts the calls made into the extraction library (0 or 1),
making "does not invoke the extraction library" checkable. -/
def download_handler (dl : Dict → String → Except Exc String)
    (cookie_exists : Bool) (url_field quality_field : Option String) :
    HResp × Nat :=
  let url := py_strip (form_get url_field)
  let quality := py_strip (form_get quality_field)
  if url = "" || quality = "" then (HResp.text "Missing URL or quality" 400, 0)
  else
    let r := if quality = "mp3" then download_audio dl cookie_exists url
             else download_video dl cookie_exists url quality
    match r with
    | Except.ok file_path => (HResp.file file_path (path_basename file_path), 1)
    | Except.error e =>
      (HResp.text ("Download failed: " ++ exc_str e) 500, 1)

/-- The response the `/download` handler builds from the outcome of the
chosen download call (app.py lines 264-282): `send_file` with the
basename as attachment name on success, `Download failed: <text>` with
500 on a raised exception; either way one extraction-library call was
made. -/
def dispatch_resp (r : Except Exc String) : HResp × Nat :=
  match r with
  | Except.ok file_path => (HResp.file file_path (path_basename file_path), 1)
  | Except.error e => (HResp.text ("Download failed: " ++ exc_str e) 500, 1)

/-- The five response fields the spec names for `/get_formats`. -/
def has_info_fields (d : Dict) : Bool :=
  dictHasKey d "title" && dictHasKey d "thumbnail" && dictHasKey d "duration" &&
  dictHasKey d "resolutions" && dictHasKey d "uploader"

theorem success_dict_fields (info : Info) :
    has_info_fields (success_dict info) = true := rfl

theorem success_dict_no_error (info : Info) :
    dictHasKey (success_dict info) "error" = false := rfl

theorem retry_success_dict_fields (info : Info) :
    has_info_fields (retry_success_dict info) = true := rfl

theorem retry_success_dict_no_error (info : Info) :
    dictHasKey (retry_success_dict info) "error" = false := rfl

theorem classify_has_error (m : String) :
    dictHasKey (classify_download_error m) "error" = true := by
  unfold classify_download_error
  split_ifs <;> rfl

/-- Every `get_video_info` result either carries an `'error'` key or is a
success dict carrying the five info fields and no `'error'` key. -/
theorem get_video_info_shape (ex : Dict → String → Except Exc Info)
    (c : Bool) (url : String) :
    dictHasKey (get_video_info ex c url) "error" = true ∨
    (dictHasKey (get_video_info ex c url) "error" = false ∧
     has_info_fields (get_video_info ex c url) = true) := by
  unfold get_video_info
  split
  · left; rfl
  · split
    · left; rfl
    · split
      · right; exact ⟨rfl, rfl⟩
      · next m _ => left; exact classify_has_error m
      · left; rfl
      · split
        · right; exact ⟨rfl, rfl⟩
        · left; rfl
      · left; rfl

theorem retryAux_zero (res : Nat → Dict) (a : Nat) :
    retryAux res a 0 = (all_failed_dict, 0, 0) := rfl

theorem retryAux_succ (res : Nat → Dict) (a n : Nat) :
    retryAux res a (n + 1) =
      if dictHasKey (res a) "error" = true then
        ((retryAux res (a + 1) n).1, (retryAux res (a + 1) n).2.1 + 1,
         (retryAux res (a + 1) n).2.2 + if 0 < n then 1 else 0)
      else (res a, 1, 0) := rfl

theorem retryAux_calls_le (res : Nat → Dict) :
    ∀ fuel a, (retryAux res a fuel).2.1 ≤ fuel := by
  intro fuel
  induction fuel with
  | zero => intro a; simp [retryAux_zero]
  | succ n ih =>
    intro a
    rw [retryAux_succ]
    cases hb : dictHasKey (res a) "error" with
    | true =>
      have := ih (a + 1)
      simp only [hb, if_true]
      omega
    | false => simp [hb]

theorem retryAux_sleep_count (res : Nat → Dict) :
    ∀ fuel a, 1 ≤ fuel →
      (retryAux res a fuel).2.2 + 1 = (retryAux res a fuel).2.1 := by
  intro fuel
  induction fuel with
  | zero => intro a h; omega
  | succ n ih =>
    intro a _
    rw [retryAux_succ]
    cases hb : dictHasKey (res a) "error" with
    | true =>
      cases n with
      | zero => simp [hb, retryAux_zero]
      | succ m =>
        have := ih (a + 1) (Nat.succ_le_succ (Nat.zero_le m))
        simp only [hb, if_true]
        have hm : 0 < m + 1 := Nat.succ_pos m
        simp only [if_pos hm]
        omega
    | false => simp [hb]

theorem retryAux_all_fail (res : Nat → Dict) :
    ∀ fuel a, (∀ j, j < fuel → dictHasKey (res (a + j)) "error" = true) →
      retryAux res a fuel = (all_failed_dict, fuel, fuel - 1) := by
  intro fuel
  induction fuel with
  | zero => intro a _; simp [retryAux_zero]
  | succ n ih =>
    intro a h
    have h0 : dictHasKey (res a) "error" = true := by
      have := h 0 (Nat.succ_pos n); simpa using this
    have hr : retryAux res (a + 1) n = (all_failed_dict, n, n - 1) := by
      apply ih
      intro j hj
      have := h (j + 1) (Nat.succ_lt_succ hj)
      simpa [Nat.add_assoc, Nat.add_comm 1 j] using this
    rw [retryAux_succ]
    simp only [h0, if_true, hr]
    cases n with
    | zero => simp
    | succ m =>
      have hm : 0 < m + 1 := Nat.succ_pos m
      simp only [if_pos hm]
      refine Prod.ext rfl (Prod.ext ?_ ?_) <;> simp

theorem retryAux_first_success (res : Nat → Dict) :
    ∀ fuel a k, k < fuel →
      (∀ j, j < k → dictHasKey (res (a + j)) "error" = true) →
      dictHasKey (res (a + k)) "error" = false →
      retryAux res a fuel = (res (a + k), k + 1, k) := by
  intro fuel
  induction fuel with
  | zero => intro a k hk; omega
  | succ n ih =>
    intro a k hk hprev hk0
    cases k with
    | zero =>
      have h0 : dictHasKey (res a) "error" = false := by simpa using hk0
      rw [retryAux_succ]
      simp [h0]
    | succ k' =>
      have h0 : dictHasKey (res a) "error" = true := by
        have := hprev 0 (Nat.succ_pos k'); simpa using this
      have hk' : k' < n := Nat.lt_of_succ_lt_succ hk
      have hr : retryAux res (a + 1) n = (res (a + 1 + k'), k' + 1, k') := by
        apply ih (a + 1) k' hk'
        · intro j hj
          have := hprev (j + 1) (Nat.succ_lt_succ hj)
          simpa [Nat.add_assoc, Nat.add_comm 1 j] using this
        · have : a + (k' + 1) = a + 1 + k' := by omega
          rw [← this]; exact hk0
      rw [retryAux_succ]
      simp only [h0, if_true, hr]
      have hn : 0 < n := Nat.lt_of_le_of_lt (Nat.zero_le k') hk'
      simp only [if_pos hn]
      have : a + 1 + k' = a + (k' + 1) := by omega
      rw [this]

theorem retryAux_result_cases (res : Nat → Dict) :
    ∀ fuel a, (retryAux res a fuel).1 = all_failed_dict ∨
      ∃ k, (retryAux res a fuel).1 = res k := by
  intro fuel
  induction fuel with
  | zero => intro a; left; rfl
  | succ n ih =>
    intro a
    rw [retryAux_succ]
    cases hb : dictHasKey (res a) "error" with
    | true =>
      simp only [if_true]
      exact ih (a + 1)
    | false =>
      simp only [Bool.false_eq_true, if_false]
      right; exact ⟨a, rfl⟩

/-- C1 counterexample: `https://evilyoutube.com/watch` parses to the netloc
`evilyoutube.com`, which is none of the allowed domains (it neither equals
one nor is a subdomain of one), yet `is_valid_youtube_url` accepts it —
so it is not the case that every URL not of an allowed domain is
rejected. -/
theorem is_valid_youtube_url_accepts_foreign_domain :
    is_valid_youtube_url "https://evilyoutube.com/watch" = true ∧
    urlparse_netloc "https://evilyoutube.com/watch" = some "evilyoutube.com" ∧
    (∀ d ∈ valid_domains, "evilyoutube.com" ≠ d ∧
      py_endswith "evilyoutube.com" ("." ++ d) = false) := by
  refine ⟨by decide, by decide, by decide⟩

/-- C1 (amended): `is_valid_youtube_url` returns true iff one of the four
allowed-domain strings occurs as a substring of the netloc of the parsed
URL (so hostnames of other domains that embed an allowed domain are also
accepted); when parsing raises, it returns false. -/
theorem is_valid_youtube_url_iff_netloc_substring :
    (∀ url netloc, urlparse_netloc url = some netloc →
      (is_valid_youtube_url url = true ↔
        valid_domains.any (fun d => py_in d netloc) = true)) ∧
    (∀ url, urlparse_netloc url = none → is_valid_youtube_url url = false) := by
  constructor
  · intro url netloc h
    unfold is_valid_youtube_url
    rw [h]
  · intro url h
    unfold is_valid_youtube_url
    rw [h]

/-- Witness for the amended C1 theorem at concrete inputs. -/
theorem is_valid_youtube_url_iff_netloc_substring_witness :
    is_valid_youtube_url "https://www.youtube.com/watch?v=dQw4w9WgXcQ" = true ∧
    is_valid_youtube_url "http://[abc" = false :=
  ⟨(is_valid_youtube_url_iff_netloc_substring.1
      "https://www.youtube.com/watch?v=dQw4w9WgXcQ" "www.youtube.com"
      (by decide)).2 (by decide),
   is_valid_youtube_url_iff_netloc_substring.2 "http://[abc" (by decide)⟩

/-- C8: `is_valid_youtube_url` returns true exactly when one of the four
allowed-domain strings occurs as a substring of the netloc of the parsed
URL; in particular a hostname of a different domain that merely embeds
`youtube.com` is accepted. -/
theorem is_valid_netloc_substring_characterization :
    (∀ url, is_valid_youtube_url url = true ↔
      ∃ netloc, urlparse_netloc url = some netloc ∧
        valid_domains.any (fun d => py_in d netloc) = true) ∧
    urlparse_netloc "https://fakeyoutube.company.example/v" =
      some "fakeyoutube.company.example" ∧
    is_valid_youtube_url "https://fakeyoutube.company.example/v" = true := by
  refine ⟨?_, by decide, by decide⟩
  intro url
  unfold is_valid_youtube_url
  cases h : urlparse_netloc url with
  | none => simp
  | some n => simp

/-- C2: every `/get_formats` JSON body either carries the five fields
title, thumbnail, duration, resolutions, uploader, or is an error object
carrying an `'error'` key; and when the first attempt's extraction
succeeds on a usable url, the body is exactly the success dict, which
carries all five fields. -/
theorem get_formats_response_fields :
    (∀ ex c uf, dictHasKey (get_formats_handler ex c uf).1 "error" = true ∨
      has_info_fields (get_formats_handler ex c uf).1 = true) ∧
    (∀ ex c uf info,
      py_strip (form_get uf) ≠ "" →
      py_strip (py_strip (form_get uf)) ≠ "" →
      is_valid_youtube_url (py_strip (form_get uf)) = true →
      ex 0 (build_ydl_opts c (some info_extra)) (py_strip (form_get uf)) =
        Except.ok info →
      (get_formats_handler ex c uf).1 = success_dict info ∧
      has_info_fields (success_dict info) = true) := by
  constructor
  · intro ex c uf
    unfold get_formats_handler
    by_cases h : py_strip (form_get uf) = ""
    · left; simp [h, dictHasKey, dictLookup]
    · simp only [h, if_false, ite_self]
      rcases retryAux_result_cases
          (fun k => get_video_info (ex k) c (py_strip (form_get uf))) 2 0 with
        hall | ⟨k, hk⟩
      · left
        unfold get_video_info_with_retry_default get_video_info_with_retry
        rw [hall]; rfl
      · unfold get_video_info_with_retry_default get_video_info_with_retry
        rw [hk]
        rcases get_video_info_shape (ex k) c (py_strip (form_get uf)) with
          he | ⟨_, hf⟩
        · exact Or.inl he
        · exact Or.inr hf
  · intro ex c uf info h1 h2 h3 h4
    refine ⟨?_, rfl⟩
    unfold get_formats_handler
    simp only [h1, if_false, ite_self]
    have hres0 : get_video_info (ex 0) c (py_strip (form_get uf)) =
        success_dict info := by
      unfold get_video_info
      simp only [h1, h2, decide_eq_true_eq, Bool.or_self, if_false, h3,
        Bool.not_true, if_true, h4]
      simp [h1, h2, h3, h4]
    have hfirst := retryAux_first_success
      (fun k => get_video_info (ex k) c (py_strip (form_get uf))) 2 0 0
      (by omega) (by intro j hj; omega) (by simpa [hres0] using success_dict_no_error info)
    unfold get_video_info_with_retry_default get_video_info_with_retry
    rw [hfirst]
    simpa using hres0

/-- Witness for the C2 theorem at concrete inputs: a concrete oracle whose
extraction succeeds, and a concrete url. -/
theorem get_formats_response_fields_witness :
    (get_formats_handler
      (fun _ _ _ => Except.ok (Info.mk (some "T") (some "th") (some 9)
        [Fmt.mk (some "avc1") (some 720)] (some "U") (some 3)))
      true (some "https://youtu.be/abc")).1 =
      success_dict (Info.mk (some "T") (some "th") (some 9)
        [Fmt.mk (some "avc1") (some 720)] (some "U") (some 3)) ∧
    has_info_fields (success_dict (Info.mk (some "T") (some "th") (some 9)
      [Fmt.mk (some "avc1") (some 720)] (some "U") (some 3))) = true :=
  get_formats_response_fields.2
    (fun _ _ _ => Except.ok (Info.mk (some "T") (some "th") (some 9)
      [Fmt.mk (some "avc1") (some 720)] (some "U") (some 3)))
    true (some "https://youtu.be/abc")
    (Info.mk (some "T") (some "th") (some 9)
      [Fmt.mk (some "avc1") (some 720)] (some "U") (some 3))
    (by decide) (by decide) (by decide) rfl

/-- C9: `/get_formats` answers 200 whenever the stripped url field is
non-empty — even when the body is an error object — and 400 exactly when it
is empty or absent after stripping. -/
theorem get_formats_status_codes (ex : Nat → Dict → String → Except Exc Info)
    (c : Bool) (uf : Option String) :
    (py_strip (form_get uf) ≠ "" → (get_formats_handler ex c uf).2 = 200) ∧
    (py_strip (form_get uf) = "" → (get_formats_handler ex c uf).2 = 400) := by
  constructor
  · intro h
    unfold get_formats_handler
    simp only [h, if_false, ite_self]
  · intro h
    unfold get_formats_handler
    simp [h]

/-- Witness for the C9 theorem: a non-empty url field (whose body is an
error object, since the oracle fails) still gets 200; an absent field gets
400. -/
theorem get_formats_status_codes_witness :
    (get_formats_handler (fun _ _ _ => Except.error (Exc.other "boom")) false
      (some "https://youtu.be/x")).2 = 200 ∧
    (get_formats_handler (fun _ _ _ => Except.error (Exc.other "boom")) false
      none).2 = 400 :=
  ⟨(get_formats_status_codes (fun _ _ _ => Except.error (Exc.other "boom"))
      false (some "https://youtu.be/x")).1 (by decide),
   (get_formats_status_codes (fun _ _ _ => Except.error (Exc.other "boom"))
      false none).2 (by decide)⟩

/-- C3: the user-facing category for a `DownloadError` is chosen by the
substring chain of app.py lines 124-137 (each arm firing only when the
earlier substrings are absent, with the generic `YouTube error: <text>`
fallback), the classification always carries an `'error'` key, and on a
usable url `get_video_info` returns the classification dict instead of
raising. -/
theorem download_error_classification (m : String) :
    (py_in "Private video" m = true →
      classify_download_error m =
        [("error", Val.s "This video is private and cannot be accessed")]) ∧
    (py_in "Private video" m = false → py_in "Members-only" m = true →
      classify_download_error m =
        [("error", Val.s "This is a members-only video")]) ∧
    (py_in "Private video" m = false → py_in "Members-only" m = false →
      (py_in "Sign in" m = true ∨ py_in "login" (py_lower m) = true) →
      classify_download_error m =
        [("error", Val.s "blocked"),
         ("message", Val.s "YouTube is requiring login. This server needs authentication cookies to access this video.")]) ∧
    (py_in "Private video" m = false → py_in "Members-only" m = false →
      py_in "Sign in" m = false → py_in "login" (py_lower m) = false →
      py_in "Video unavailable" m = true →
      classify_download_error m =
        [("error", Val.s "This video is unavailable or has been removed")]) ∧
    (py_in "Private video" m = false → py_in "Members-only" m = false →
      py_in "Sign in" m = false → py_in "login" (py_lower m) = false →
      py_in "Video unavailable" m = false →
      (py_in "Too Many Requests" m = true ∨ py_in "429" m = true) →
      classify_download_error m =
        [("error", Val.s "YouTube is blocking requests due to rate limiting. Please try again later.")]) ∧
    (py_in "Private video" m = false → py_in "Members-only" m = false →
      py_in "Sign in" m = false → py_in "login" (py_lower m) = false →
      py_in "Video unavailable" m = false → py_in "Too Many Requests" m = false →
      py_in "429" m = false → py_in "Unsupported URL" m = true →
      classify_download_error m =
        [("error", Val.s "Unsupported URL or invalid YouTube link")]) ∧
    (py_in "Private video" m = false → py_in "Members-only" m = false →
      py_in "Sign in" m = false → py_in "login" (py_lower m) = false →
      py_in "Video unavailable" m = false → py_in "Too Many Requests" m = false →
      py_in "429" m = false → py_in "Unsupported URL" m = false →
      classify_download_error m =
        [("error", Val.s ("YouTube error: " ++ m))]) ∧
    dictHasKey (classify_download_error m) "error" = true ∧
    (∀ ex c url, url ≠ "" → py_strip url ≠ "" →
      is_valid_youtube_url url = true →
      ex (build_ydl_opts c (some info_extra)) url =
        Except.error (Exc.downloadError m) →
      get_video_info ex c url = classify_download_error m) := by
  refine ⟨?_, ?_, ?_, ?_, ?_, ?_, ?_, classify_has_error m, ?_⟩
  · intro h1; unfold classify_download_error; simp [h1]
  · intro h1 h2; unfold classify_download_error; simp [h1, h2]
  · intro h1 h2 h3
    unfold classify_download_error
    rcases h3 with h3 | h3 <;> simp [h1, h2, h3]
  · intro h1 h2 h3 h4 h5; unfold classify_download_error
    simp [h1, h2, h3, h4, h5]
  · intro h1 h2 h3 h4 h5 h6
    unfold classify_download_error
    rcases h6 with h6 | h6 <;> simp [h1, h2, h3, h4, h5, h6]
  · intro h1 h2 h3 h4 h5 h6 h7 h8
    unfold classify_download_error
    simp [h1, h2, h3, h4, h5, h6, h7, h8]
  · intro h1 h2 h3 h4 h5 h6 h7 h8
    unfold classify_download_error
    simp [h1, h2, h3, h4, h5, h6, h7, h8]
  · intro ex c url hu1 hu2 hv hex
    unfold get_video_info
    simp [hu1, hu2, hv, hex]

/-- Witness for the C3 theorem at a concrete message and oracle. -/
theorem download_error_classification_witness :
    classify_download_error "ERROR: Private video. Sign in." =
      [("error", Val.s "This video is private and cannot be accessed")] ∧
    get_video_info
      (fun _ _ => Except.error (Exc.downloadError "HTTP Error 429"))
      false "https://youtu.be/x" =
      classify_download_error "HTTP Error 429" :=
  ⟨(download_error_classification "ERROR: Private video. Sign in.").1
      (by decide),
   (download_error_classification "HTTP Error 429").2.2.2.2.2.2.2.2
      (fun _ _ => Except.error (Exc.downloadError "HTTP Error 429"))
      false "https://youtu.be/x" (by decide) (by decide) (by decide) rfl⟩

/-- C10: `get_video_info` is total over its exception model — its return
type in this embedding is a plain dict, every result either carries an
`'error'` key or carries the five info fields, and whenever the main
extraction call raises (any constructor of `Exc`), the result is either an
error dict or, for a `UnicodeDecodeError` whose simplified-options retry
succeeds, the retry success dict. -/
theorem get_video_info_total_error_dict
    (ex : Dict → String → Except Exc Info) (c : Bool) (url : String) :
    (dictHasKey (get_video_info ex c url) "error" = true ∨
     (dictHasKey (get_video_info ex c url) "error" = false ∧
      has_info_fields (get_video_info ex c url) = true)) ∧
    (∀ e, url ≠ "" → py_strip url ≠ "" → is_valid_youtube_url url = true →
      ex (build_ydl_opts c (some info_extra)) url = Except.error e →
      dictHasKey (get_video_info ex c url) "error" = true ∨
      (∃ m info, e = Exc.unicodeDecodeError m ∧
        ex simplified_opts url = Except.ok info ∧
        get_video_info ex c url = retry_success_dict info)) := by
  refine ⟨get_video_info_shape ex c url, ?_⟩
  intro e hu1 hu2 hv hex
  unfold get_video_info
  simp only [hu1, hu2, decide_eq_true_eq, hv, Bool.not_true, hex]
  rw [if_neg (by simp [hu1, hu2]), if_neg (by simp [hv])]
  cases e with
  | downloadError m => left; exact classify_has_error m
  | extractorError m => left; rfl
  | unicodeDecodeError m =>
    cases h2 : ex simplified_opts url with
    | ok info =>
      right
      exact ⟨m, info, rfl, rfl, rfl⟩
    | error e2 => left; rfl
  | other m => left; rfl

/-- Witness for the C10 theorem at a concrete failing oracle. -/
theorem get_video_info_total_error_dict_witness :
    dictHasKey (get_video_info (fun _ _ => Except.error (Exc.other "x"))
      false "https://youtu.be/a") "error" = true ∨
    (∃ m info, Exc.other "x" = Exc.unicodeDecodeError m ∧
      (fun (_ : Dict) (_ : String) => Except.error (Exc.other "x") :
        Dict → String → Except Exc Info) simplified_opts "https://youtu.be/a" =
        Except.ok info ∧
      get_video_info (fun _ _ => Except.error (Exc.other "x"))
        false "https://youtu.be/a" = retry_success_dict info) :=
  (get_video_info_total_error_dict (fun _ _ => Except.error (Exc.other "x"))
    false "https://youtu.be/a").2 (Exc.other "x")
    (by decide) (by decide) (by decide) rfl

/-- C5: the retry wrapper makes at most `max_retries` calls (default 2),
sleeps exactly one second between successive attempts and nowhere else (no
backoff), returns the first result lacking an `'error'` key, retries after
any error result regardless of its message, and when every attempt fails
returns the fixed `All attempts failed. Please try again later.` dict,
discarding the per-attempt messages. -/
theorem retry_policy (res : Nat → Dict) (max_retries : Nat) :
    (get_video_info_with_retry_default res = get_video_info_with_retry res 2) ∧
    (get_video_info_with_retry res max_retries).2.1 ≤ max_retries ∧
    (1 ≤ max_retries →
      (get_video_info_with_retry res max_retries).2.2 + 1 =
        (get_video_info_with_retry res max_retries).2.1) ∧
    (∀ k, k < max_retries →
      (∀ j, j < k → dictHasKey (res j) "error" = true) →
      dictHasKey (res k) "error" = false →
      get_video_info_with_retry res max_retries = (res k, k + 1, k)) ∧
    ((∀ j, j < max_retries → dictHasKey (res j) "error" = true) →
      get_video_info_with_retry res max_retries =
        (all_failed_dict, max_retries, max_retries - 1)) := by
  refine ⟨rfl, retryAux_calls_le res max_retries 0,
    retryAux_sleep_count res max_retries 0, ?_, ?_⟩
  · intro k hk hprev hk0
    have := retryAux_first_success res max_retries 0 k hk
      (by intro j hj; simpa using hprev j hj) (by simpa using hk0)
    simpa [get_video_info_with_retry] using this
  · intro h
    have := retryAux_all_fail res max_retries 0
      (by intro j hj; simpa using h j hj)
    simpa [get_video_info_with_retry] using this

/-- Witness for the C5 theorem: with two attempts both failing, the wrapper
returns the fixed failure dict after 2 calls and 1 second of sleep. -/
theorem retry_policy_witness :
    get_video_info_with_retry (fun _ => [("error", Val.s "e")]) 2 =
      (all_failed_dict, 2, 1) :=
  (retry_policy (fun _ => [("error", Val.s "e")]) 2).2.2.2.2
    (by intro j _; rfl)

/-- C4: when the stripped url or quality field is missing/empty the
`/download` handler answers `Missing URL or quality` with 400 and makes no
extraction-library call; when both are present and the chosen download
call raises, the handler answers `Download failed: <text>` with 500. -/
theorem download_handler_errors (dl : Dict → String → Except Exc String)
    (c : Bool) (uf qf : Option String) :
    ((py_strip (form_get uf) = "" ∨ py_strip (form_get qf) = "") →
      download_handler dl c uf qf = (HResp.text "Missing URL or quality" 400, 0)) ∧
    (∀ e, py_strip (form_get uf) ≠ "" → py_strip (form_get qf) ≠ "" →
      (if py_strip (form_get qf) = "mp3"
        then download_audio dl c (py_strip (form_get uf))
        else download_video dl c (py_strip (form_get uf))
          (py_strip (form_get qf))) = Except.error e →
      download_handler dl c uf qf =
        (HResp.text ("Download failed: " ++ exc_str e) 500, 1)) := by
  constructor
  · intro h
    unfold download_handler
    rcases h with h | h <;> simp [h]
  · intro e h1 h2 hr
    unfold download_handler
    rw [if_neg (by simp [h1, h2])]
    rw [hr]

/-- Witness for the C4 theorem: a missing quality field gets the 400 text,
and a failing download gets the 500 text. -/
theorem download_handler_errors_witness :
    download_handler (fun _ _ => Except.error (Exc.downloadError "boom"))
      true (some "https://youtu.be/a") none =
      (HResp.text "Missing URL or quality" 400, 0) ∧
    download_handler (fun _ _ => Except.error (Exc.downloadError "boom"))
      true (some "https://youtu.be/a") (some "720") =
      (HResp.text ("Download failed: " ++ exc_str (Exc.downloadError "boom"))
        500, 1) :=
  ⟨(download_handler_errors (fun _ _ => Except.error (Exc.downloadError "boom"))
      true (some "https://youtu.be/a") none).1 (Or.inr (by decide)),
   (download_handler_errors (fun _ _ => Except.error (Exc.downloadError "boom"))
      true (some "https://youtu.be/a") (some "720")).2
      (Exc.downloadError "boom") (by decide) (by decide) rfl⟩

theorem py_endswith_append (s t : String) : py_endswith (s ++ t) t = true := by
  unfold py_endswith
  rw [String.data_append]
  simp [List.isSuffixOf]

/-- C7: for a quality other than `'mp3'` the `/download` handler calls
`download_video`, whose options carry the height-ceiling format selector
and `merge_output_format: mp4` and whose successful result ends in
`.mp4`; for `'mp3'` it calls `download_audio`, whose options request the
`FFmpegExtractAudio` post-processor with preferred codec `mp3` and whose
result ends in `.mp3`. -/
theorem download_quality_dispatch (dl : Dict → String → Except Exc String)
    (c : Bool) (url quality : String) :
    (dictLookup (build_ydl_opts c (some (video_extra quality))) "format" =
      some (Val.s ("bestvideo[height<=" ++ quality ++
        "]+bestaudio/best[height<=" ++ quality ++ "]")) ∧
     dictLookup (build_ydl_opts c (some (video_extra quality)))
       "merge_output_format" = some (Val.s "mp4")) ∧
    (∀ p, download_video dl c url quality = Except.ok p →
      py_endswith p ".mp4" = true) ∧
    (dictLookup (build_ydl_opts c (some audio_extra)) "postprocessors" =
      some (Val.list [Val.dict
        [ ("key", Val.s "FFmpegExtractAudio"),
          ("preferredcodec", Val.s "mp3"),
          ("preferredquality", Val.s "192") ]])) ∧
    (∀ p, download_audio dl c url = Except.ok p →
      py_endswith p ".mp3" = true) ∧
    (∀ uf qf, py_strip (form_get uf) ≠ "" → py_strip (form_get qf) ≠ "" →
      (py_strip (form_get qf) = "mp3" →
        download_handler dl c uf qf =
          dispatch_resp (download_audio dl c (py_strip (form_get uf)))) ∧
      (py_strip (form_get qf) ≠ "mp3" →
        download_handler dl c uf qf =
          dispatch_resp (download_video dl c (py_strip (form_get uf))
            (py_strip (form_get qf))))) := by
  refine ⟨⟨?_, ?_⟩, ?_, ?_, ?_, ?_⟩
  · cases c <;> rfl
  · cases c <;> rfl
  · intro p hp
    unfold download_video at hp
    cases hdl : dl (build_ydl_opts c (some (video_extra quality))) url with
    | ok f =>
      rw [hdl] at hp
      cases hf : py_endswith f ".mp4" with
      | true =>
        simp only [hf, if_true, Except.ok.injEq] at hp
        rw [← hp]; exact hf
      | false =>
        simp only [hf, Bool.false_eq_true, if_false, Except.ok.injEq] at hp
        rw [← hp]; exact py_endswith_append _ _
    | error e => rw [hdl] at hp; cases hp
  · cases c <;> rfl
  · intro p hp
    unfold download_audio at hp
    cases hdl : dl (build_ydl_opts c (some audio_extra)) url with
    | ok f =>
      rw [hdl] at hp
      simp only [Except.ok.injEq] at hp
      rw [← hp]; exact py_endswith_append _ _
    | error e => rw [hdl] at hp; cases hp
  · intro uf qf h1 h2
    constructor
    · intro hq
      unfold download_handler
      rw [if_neg (by simp [h1, h2])]
      rw [if_pos hq]
      cases hr : download_audio dl c (py_strip (form_get uf)) with
      | ok p => rfl
      | error e => rfl
    · intro hq
      unfold download_handler
      rw [if_neg (by simp [h1, h2])]
      rw [if_neg hq]
      cases hr : download_video dl c (py_strip (form_get uf))
          (py_strip (form_get qf)) with
      | ok p => rfl
      | error e => rfl

/-- Witness for the C7 theorem at a concrete oracle: the video path ends in
`.mp4`, the audio path ends in `.mp3`, and the handler dispatches on the
quality field. -/
theorem download_quality_dispatch_witness :
    py_endswith "/tmp/downloads/V.mp4" ".mp4" = true ∧
    py_endswith "/tmp/downloads/V.mp3" ".mp3" = true ∧
    download_handler (fun _ _ => Except.ok "/tmp/downloads/V.webm")
      true (some "https://youtu.be/a") (some "720") =
      dispatch_resp (download_video
        (fun _ _ => Except.ok "/tmp/downloads/V.webm") true
        "https://youtu.be/a" "720") ∧
    download_handler (fun _ _ => Except.ok "/tmp/downloads/V.webm")
      true (some "https://youtu.be/a") (some "mp3") =
      dispatch_resp (download_audio
        (fun _ _ => Except.ok "/tmp/downloads/V.webm") true
        "https://youtu.be/a") :=
  ⟨(download_quality_dispatch (fun _ _ => Except.ok "/tmp/downloads/V.webm")
      true "https://youtu.be/a" "720").2.1 "/tmp/downloads/V.mp4" rfl,
   (download_quality_dispatch (fun _ _ => Except.ok "/tmp/downloads/V.webm")
      true "https://youtu.be/a" "mp3").2.2.2.1 "/tmp/downloads/V.mp3" rfl,
   ((download_quality_dispatch (fun _ _ => Except.ok "/tmp/downloads/V.webm")
      true "https://youtu.be/a" "720").2.2.2.2
      (some "https://youtu.be/a") (some "720") (by decide) (by decide)).2
      (by decide),
   ((download_quality_dispatch (fun _ _ => Except.ok "/tmp/downloads/V.webm")
      true "https://youtu.be/a" "mp3").2.2.2.2
      (some "https://youtu.be/a") (some "mp3") (by decide) (by decide)).1
      (by decide)⟩

theorem dictLookup_dictSet_self (d : Dict) (k : String) (v : Val) :
    dictLookup (dictSet d k v) k = some v := by
  induction d with
  | nil => simp [dictSet, dictLookup]
  | cons kv t ih =>
    obtain ⟨k', v'⟩ := kv
    by_cases h : k' = k <;> simp [dictSet, dictLookup, h, ih]

theorem dictLookup_dictSet_ne (d : Dict) (k k' : String) (v : Val)
    (h : k' ≠ k) : dictLookup (dictSet d k' v) k = dictLookup d k := by
  induction d with
  | nil => simp [dictSet, dictLookup, h]
  | cons kv t ih =>
    obtain ⟨k0, v0⟩ := kv
    by_cases h0 : k0 = k' <;> by_cases h1 : k0 = k <;>
      simp_all [dictSet, dictLookup]

theorem dictLookup_dictUpdate_not_mem (extra : Dict) (k : String)
    (h : dictHasKey extra k = false) :
    ∀ d, dictLookup (dictUpdate d extra) k = dictLookup d k := by
  induction extra with
  | nil => intro d; rfl
  | cons kv t ih =>
    intro d
    obtain ⟨k', v'⟩ := kv
    have hk : k' ≠ k ∧ dictHasKey t k = false := by
      by_cases hkk : k' = k <;>
        simp_all [dictHasKey, dictLookup, Option.isSome]
    have step : dictUpdate d ((k', v') :: t) = dictUpdate (dictSet d k' v') t :=
      rfl
    rw [step, ih hk.2 (dictSet d k' v'), dictLookup_dictSet_ne d k k' v' hk.1]

/-- C6: with the environment variable unset, `write_cookiefile_from_env`
writes nothing and returns False; with it set (non-empty) and decodable,
the decoded bytes are written to `COOKIE_PATH`
(`/tmp/youtube.com_cookies.txt`) and True is returned; and every options
dict `build_ydl_opts` produces carries `cookiefile = COOKIE_PATH` exactly
when the cookie file exists (for every `extra` that does not itself bind
`cookiefile`, which none in the program does). -/
theorem cookiefile_from_env :
    COOKIE_PATH = "/tmp/youtube.com_cookies.txt" ∧
    (∀ dec, write_cookiefile_from_env none dec = (none, false)) ∧
    (∀ s dec data, s ≠ "" → dec s = some data →
      write_cookiefile_from_env (some s) dec = (some data, true)) ∧
    (∀ extra, dictHasKey extra "cookiefile" = false →
      dictLookup (build_ydl_opts true (some extra)) "cookiefile" =
        some (Val.s COOKIE_PATH)) ∧
    (∀ extra, dictHasKey extra "cookiefile" = false →
      dictLookup (build_ydl_opts false (some extra)) "cookiefile" = none) ∧
    dictLookup (build_ydl_opts true none) "cookiefile" =
      some (Val.s COOKIE_PATH) ∧
    dictLookup (build_ydl_opts false none) "cookiefile" = none := by
  refine ⟨rfl, fun dec => rfl, ?_, ?_, ?_, rfl, rfl⟩
  · intro s dec data hs hdec
    unfold write_cookiefile_from_env
    simp only []
    rw [if_neg hs, hdec]
  · intro extra h
    unfold build_ydl_opts
    simp only [if_true]
    rw [dictLookup_dictUpdate_not_mem extra "cookiefile" h]
    exact dictLookup_dictSet_self base_opts "cookiefile" (Val.s COOKIE_PATH)
  · intro extra h
    unfold build_ydl_opts
    simp only [Bool.false_eq_true, if_false]
    rw [dictLookup_dictUpdate_not_mem extra "cookiefile" h]
    rfl

/-- Witness for the C6 theorem at a concrete environment and decoder. -/
theorem cookiefile_from_env_witness :
    write_cookiefile_from_env (some "YQ==")
      (fun s => if s = "YQ==" then some [97] else none) = (some [97], true) ∧
    dictLookup (build_ydl_opts true (some info_extra)) "cookiefile" =
      some (Val.s COOKIE_PATH) ∧
    dictLookup (build_ydl_opts false (some info_extra)) "cookiefile" = none :=
  ⟨cookiefile_from_env.2.2.1 "YQ=="
      (fun s => if s = "YQ==" then some [97] else none) [97]
      (by decide) (by simp),
   cookiefile_from_env.2.2.2.1 info_extra rfl,
   cookiefile_from_env.2.2.2.2.1 info_extra rfl⟩
